import Mathlib

/-!
Verification of the authentication core of the `re_platform2.0` backend.

Shallow embedding of:
  - `backend/app/models/user.py` (the `User` record and `UserRole` enum),
  - `backend/app/schemas/user.py` (`UserCreate`, `UserLogin`, `UserResponse`),
  - `backend/app/schemas/token.py` (`Token`),
  - `backend/app/services/auth_service.py` (`AuthService`),
  - `backend/app/core/deps.py` (`get_current_user`, `require_role`).

The database session is modelled as a list of user records; `scalars().first()`
becomes `List.find?`.  Timestamps are naturals.  The password hasher and the
JWT codec live in `backend/app/core/security.py`, which is not part of the
sources at hand: the hasher is treated as an abstract parameter, the codec is
modelled from the spec where a claim needs its internals.
-/

/-- `UserRole` from `backend/app/models/user.py`: ADMIN = "admin",
ANALYST = "analyst", VIEWER = "viewer". -/
inductive UserRole
  | ADMIN
  | ANALYST
  | VIEWER
deriving DecidableEq, Repr

/-- `.value` of a `UserRole` member, as used in `login_user`'s claim dict. -/
def UserRole.value : UserRole → String
  | .ADMIN => "admin"
  | .ANALYST => "analyst"
  | .VIEWER => "viewer"

/-- The `users` table row from `backend/app/models/user.py`.
`created_at` has a server default of now, `updated_at` has
`onupdate=func.now()`, `is_active` defaults to true, `is_verified` defaults
to false, `last_login` is nullable. -/
structure UserRec where
  id : Nat
  username : String
  email : String
  hashed_password : String
  full_name : Option String
  role : UserRole
  is_active : Bool
  is_verified : Bool
  created_at : Nat
  updated_at : Option Nat
  last_login : Option Nat
deriving DecidableEq, Repr

/-- The database: the single `users` table, in insertion order. -/
abbrev Db := List UserRec

/-- `UserLogin` from `backend/app/schemas/user.py`. -/
structure UserLogin where
  username : String
  password : String
deriving DecidableEq, Repr

/-- `UserCreate` from `backend/app/schemas/user.py` (inherits `UserBase`):
`role` defaults to VIEWER and `is_active` to true when the caller leaves
them unspecified. -/
structure UserCreate where
  username : String
  email : String
  full_name : Option String := none
  role : UserRole := .VIEWER
  is_active : Bool := true
  password : String
deriving DecidableEq, Repr

/-- The failure kinds of spec section 7, as raised by the service and the
dependency layer. -/
inductive Failure
  | Conflict
  | InvalidCredentials
  | Unauthenticated
  | InactiveUser
  | Forbidden
deriving DecidableEq, Repr

/-- The HTTP status and detail string each failure kind is raised with in
`auth_service.py` and `deps.py`. -/
def failureStatus : Failure → Nat × String
  | .Conflict => (400, "Username or email already registered")
  | .InvalidCredentials => (401, "Incorrect username or password")
  | .Unauthenticated => (401, "Could not validate credentials")
  | .InactiveUser => (400, "Inactive user")
  | .Forbidden => (403, "Not enough permissions")

/-- `AuthService.authenticate_user` from `backend/app/services/auth_service.py`.
Looks the user up by username; returns `none` on an unknown username, a
failed password check, or an inactive user; on success sets `last_login` to
`datetime.utcnow()` (`now`) and commits — the commit also writes the row's
`updated_at` column, whose `onupdate=func.now()` default fires on any update
(`dbNow`).  Returns the (possibly updated) database alongside the result. -/
def authenticate_user (verify : String → String → Bool) (now dbNow : Nat)
    (db : Db) (login : UserLogin) : Option UserRec × Db :=
  match db.find? (fun u => u.username == login.username) with
  | none => (none, db)
  | some user =>
    if !verify login.password user.hashed_password then (none, db)
    else if !user.is_active then (none, db)
    else
      let user' := { user with last_login := some now, updated_at := some dbNow }
      (some user', db.map (fun u => if u.id == user.id then user' else u))

/-- `AuthService.create_user` from `backend/app/services/auth_service.py`.
Queries for an existing user with the same username or email; raises
Conflict (HTTP 400) if one exists; otherwise hashes the password, inserts a
new row and returns it after refresh.  The insert applies the model
defaults: `is_verified = False`, `created_at = now()` server-side,
`updated_at` and `last_login` null, id assigned by the database (modelled
as the next index). -/
def create_user (hash : String → String) (dbNow : Nat) (db : Db)
    (user_data : UserCreate) : Except Failure (UserRec × Db) :=
  match db.find? (fun u =>
      u.username == user_data.username || u.email == user_data.email) with
  | some _ => .error .Conflict
  | none =>
    let db_user : UserRec :=
      { id := db.length + 1
        username := user_data.username
        email := user_data.email
        hashed_password := hash user_data.password
        full_name := user_data.full_name
        role := user_data.role
        is_active := user_data.is_active
        is_verified := false
        created_at := dbNow
        updated_at := none
        last_login := none }
    .ok (db_user, db ++ [db_user])

/-- The claim set passed to `create_access_token` in `login_user`:
`{"sub": user.username, "user_id": user.id, "role": user.role.value}`. -/
structure TokenClaims where
  sub : String
  user_id : Nat
  role : String
deriving DecidableEq, Repr

/-- Modelled from the spec: `backend/app/core/security.py` is not among the
sources; spec 4.2 says a token is a signed, self-contained claim set with an
absolute expiry.  A token string is modelled as its decoded content: the
claims, the expiry, and a signature over both. -/
structure TokenString where
  claims : TokenClaims
  exp : Nat
  sig : Nat
deriving DecidableEq, Repr

/-- Modelled from the spec: the process-wide HMAC-style signature over the
payload, keyed by the `SECRET_KEY`.  Any concrete function of the key and
the full payload serves the model. -/
def signPayload (key : Nat) (c : TokenClaims) (exp : Nat) : Nat :=
  key + 2 * exp + 3 * c.user_id + 5 * c.sub.length + 7 * c.role.length

/-- Modelled from the spec: `issue` of the Token Codec
(`create_access_token` in `backend/app/core/security.py`, absent from the
sources).  Spec 4.2: embeds the claims plus an absolute expiry computed as
issue-time + ttl, signed with the process key.  `expires_delta` is in
seconds. -/
def create_access_token (key now : Nat) (data : TokenClaims)
    (expires_delta : Nat) : TokenString :=
  { claims := data, exp := now + expires_delta
    sig := signPayload key data (now + expires_delta) }

/-- The two decode failures of spec 4.2. -/
inductive TokenError
  | InvalidSignature
  | Expired
deriving DecidableEq, Repr

/-- Modelled from the spec: `decode` of the Token Codec (`verify_token` in
`backend/app/core/security.py`, absent from the sources).  Spec 4.2:
verifies the signature first (verify-then-trust), fails `InvalidSignature`
on mismatch, `Expired` when the current time is at or past the embedded
expiry, otherwise returns the claims. -/
def verify_token (key now : Nat) (t : TokenString) :
    Except TokenError TokenClaims :=
  if t.sig != signPayload key t.claims t.exp then .error .InvalidSignature
  else if t.exp ≤ now then .error .Expired
  else .ok t.claims

/-- `Token` response schema from `backend/app/schemas/token.py`. -/
structure Token where
  access_token : TokenString
  token_type : String := "bearer"
  expires_in : Nat
deriving DecidableEq, Repr

/-- `AuthService.login_user` from `backend/app/services/auth_service.py`.
Delegates to `authenticate_user`; raises HTTP 401 (InvalidCredentials) on
`None`; otherwise mints a token over `{sub, user_id, role}` with a ttl of
`ACCESS_TOKEN_EXPIRE_MINUTES` minutes (`ttlMinutes`) and returns it with
`token_type = "bearer"` and `expires_in = ACCESS_TOKEN_EXPIRE_MINUTES * 60`. -/
def login_user (verify : String → String → Bool)
    (key now dbNow ttlMinutes : Nat) (db : Db) (login_data : UserLogin) :
    Except Failure (Token × Db) :=
  match authenticate_user verify now dbNow db login_data with
  | (none, _) => .error .InvalidCredentials
  | (some user, db') =>
    let access_token := create_access_token key now
      { sub := user.username, user_id := user.id, role := user.role.value }
      (ttlMinutes * 60)
    .ok ({ access_token := access_token, token_type := "bearer"
           expires_in := ttlMinutes * 60 }, db')

/-- `AuthService.get_user_by_id` from `backend/app/services/auth_service.py`. -/
def get_user_by_id (db : Db) (user_id : Nat) : Option UserRec :=
  db.find? (fun u => u.id == user_id)

/-- `get_current_user` from `backend/app/core/deps.py`.  Verifies the token
(a failing `verify_token` raises HTTP 401, surfaced as Unauthenticated),
looks up the user by the embedded `user_id` (absent: the 401
credentials_exception), rejects inactive users with HTTP 400 "Inactive
user" (InactiveUser), otherwise returns the user. -/
def get_current_user (key now : Nat) (db : Db) (token_str : TokenString) :
    Except Failure UserRec :=
  match verify_token key now token_str with
  | .error _ => .error .Unauthenticated
  | .ok token_data =>
    match get_user_by_id db token_data.user_id with
    | none => .error .Unauthenticated
    | some user =>
      if !user.is_active then .error .InactiveUser
      else .ok user

/-- The inner `role_checker` of `require_role` from
`backend/app/core/deps.py`: raises HTTP 403 (Forbidden) when
`current_user.role != required_role and current_user.role != UserRole.ADMIN`,
else returns the user. -/
def role_checker (required_role : UserRole) (current_user : UserRec) :
    Except Failure UserRec :=
  if current_user.role != required_role && current_user.role != UserRole.ADMIN
  then .error .Forbidden
  else .ok current_user

/-- `UserResponse` from `backend/app/schemas/user.py`: the view returned by
the register and `/me` endpoints (`response_model=UserResponse`,
`from_attributes = True`).  It has a field for neither `hashed_password`
nor a plaintext password. -/
structure UserResponse where
  username : String
  email : String
  full_name : Option String
  role : UserRole
  is_active : Bool
  id : Nat
  is_verified : Bool
  created_at : Nat
  updated_at : Option Nat
  last_login : Option Nat
deriving DecidableEq, Repr

/-- The `from_attributes` projection of a user row into `UserResponse`:
each schema field is read off the attribute of the same name. -/
def toUserResponse (u : UserRec) : UserResponse :=
  { username := u.username, email := u.email, full_name := u.full_name
    role := u.role, is_active := u.is_active, id := u.id
    is_verified := u.is_verified, created_at := u.created_at
    updated_at := u.updated_at, last_login := u.last_login }

/-- C1: for every store state, verifier, clock and (username, password)
input, `authenticate_user` returns the identical outcome — `none` with the
store untouched — in all three failure cases: unknown username, wrong
password for an existing user, and correct password for an inactive user.
A caller cannot distinguish these cases from the return value. -/
theorem authenticate_user_uniform_none
    (verify : String → String → Bool) (now dbNow : Nat) (db : Db)
    (login : UserLogin) :
    (db.find? (fun u => u.username == login.username) = none →
      authenticate_user verify now dbNow db login = (none, db)) ∧
    (∀ user, db.find? (fun u => u.username == login.username) = some user →
      verify login.password user.hashed_password = false →
      authenticate_user verify now dbNow db login = (none, db)) ∧
    (∀ user, db.find? (fun u => u.username == login.username) = some user →
      verify login.password user.hashed_password = true →
      user.is_active = false →
      authenticate_user verify now dbNow db login = (none, db)) := by
  refine ⟨?_, ?_, ?_⟩ <;> intros <;> simp [authenticate_user, *]

theorem authenticate_user_uniform_none_witness :
    authenticate_user (fun _ _ => true) 0 0 []
      { username := "a", password := "p" } = (none, []) :=
  (authenticate_user_uniform_none (fun _ _ => true) 0 0 []
    { username := "a", password := "p" }).1 rfl

/-- C2: for every resolved user and required role, `role_checker` permits
the operation iff the user's role equals the required role or is ADMIN, and
fails with Forbidden otherwise; in particular an ANALYST fails a VIEWER
requirement and a VIEWER fails an ANALYST requirement. -/
theorem role_checker_iff (required_role : UserRole) (current_user : UserRec) :
    (role_checker required_role current_user = .ok current_user ↔
      (current_user.role = required_role ∨
        current_user.role = UserRole.ADMIN)) ∧
    (role_checker required_role current_user = .error .Forbidden ↔
      ¬(current_user.role = required_role ∨
        current_user.role = UserRole.ADMIN)) ∧
    (current_user.role = UserRole.ANALYST →
      role_checker UserRole.VIEWER current_user = .error .Forbidden) ∧
    (current_user.role = UserRole.VIEWER →
      role_checker UserRole.ANALYST current_user = .error .Forbidden) := by
  refine ⟨?_, ?_, ?_, ?_⟩
  · by_cases h : current_user.role = required_role ∨
        current_user.role = UserRole.ADMIN
    · have hb : (current_user.role != required_role &&
          current_user.role != UserRole.ADMIN) = false := by
        rcases h with h | h <;> simp [h]
      simp [role_checker, hb, h]
    · push_neg at h
      have hb : (current_user.role != required_role &&
          current_user.role != UserRole.ADMIN) = true := by
        simp [h.1, h.2]
      simp [role_checker, hb]
      tauto
  · by_cases h : current_user.role = required_role ∨
        current_user.role = UserRole.ADMIN
    · have hb : (current_user.role != required_role &&
          current_user.role != UserRole.ADMIN) = false := by
        rcases h with h | h <;> simp [h]
      simp [role_checker, hb]
      tauto
    · push_neg at h
      have hb : (current_user.role != required_role &&
          current_user.role != UserRole.ADMIN) = true := by
        simp [h.1, h.2]
      simp [role_checker, hb]
      tauto
  · intro h; simp [role_checker, h]
  · intro h; simp [role_checker, h]

theorem role_checker_iff_witness :
    role_checker UserRole.VIEWER
      { id := 1, username := "ana", email := "ana@example.com"
        hashed_password := "h", full_name := none, role := UserRole.ANALYST
        is_active := true, is_verified := false, created_at := 0
        updated_at := none, last_login := none } = .error .Forbidden :=
  (role_checker_iff UserRole.VIEWER
    { id := 1, username := "ana", email := "ana@example.com"
      hashed_password := "h", full_name := none, role := UserRole.ANALYST
      is_active := true, is_verified := false, created_at := 0
      updated_at := none, last_login := none }).2.2.1 rfl

/-- C3: `get_current_user` fails Unauthenticated when the token fails to
decode (invalid signature or expired) or when no user has the embedded
`user_id`; fails InactiveUser when the looked-up user is inactive; and
otherwise returns that user. -/
theorem get_current_user_spec (key now : Nat) (db : Db) (t : TokenString) :
    (∀ e, verify_token key now t = .error e →
      get_current_user key now db t = .error .Unauthenticated) ∧
    (∀ td, verify_token key now t = .ok td →
      get_user_by_id db td.user_id = none →
      get_current_user key now db t = .error .Unauthenticated) ∧
    (∀ td user, verify_token key now t = .ok td →
      get_user_by_id db td.user_id = some user →
      user.is_active = false →
      get_current_user key now db t = .error .InactiveUser) ∧
    (∀ td user, verify_token key now t = .ok td →
      get_user_by_id db td.user_id = some user →
      user.is_active = true →
      get_current_user key now db t = .ok user) := by
  refine ⟨?_, ?_, ?_, ?_⟩ <;> intros <;> simp [get_current_user, *]

theorem get_current_user_spec_witness :
    get_current_user 0 0 []
      { claims := { sub := "a", user_id := 1, role := "admin" }
        exp := 100, sig := 999 } = .error .Unauthenticated :=
  (get_current_user_spec 0 0 []
    { claims := { sub := "a", user_id := 1, role := "admin" }
      exp := 100, sig := 999 }).1 .InvalidSignature rfl

/-- A concrete registration input used by witnesses. -/
def sampleCreate : UserCreate :=
  { username := "alice", email := "alice@example.com", password := "pw123456" }

/-- The user row `create_user` persists for `sampleCreate` on an empty
database under the hash `fun p => "#" ++ p`. -/
def sampleCreated : UserRec :=
  { id := 1, username := "alice", email := "alice@example.com"
    hashed_password := "#pw123456", full_name := none
    role := UserRole.VIEWER, is_active := true, is_verified := false
    created_at := 0, updated_at := none, last_login := none }

/-- C4: `create_user` fails with Conflict iff a user with the same username
or email already exists; otherwise it succeeds, appending a new user to the
store and returning it — a user whose `hashed_password` is the hasher's
output on the supplied password and whose role and `is_active` are the
supplied values, which the `UserCreate` schema defaults to VIEWER and true
when unspecified. -/
theorem create_user_spec (hash : String → String) (dbNow : Nat) (db : Db)
    (user_data : UserCreate) :
    (create_user hash dbNow db user_data = .error .Conflict ↔
      ∃ u ∈ db, u.username = user_data.username ∨
        u.email = user_data.email) ∧
    ((¬ ∃ u ∈ db, u.username = user_data.username ∨
        u.email = user_data.email) →
      ∃ u, create_user hash dbNow db user_data = .ok (u, db ++ [u])) ∧
    (∀ u db', create_user hash dbNow db user_data = .ok (u, db') →
      u.hashed_password = hash user_data.password ∧
      u.role = user_data.role ∧
      u.is_active = user_data.is_active ∧
      u.username = user_data.username ∧
      u.email = user_data.email ∧
      db' = db ++ [u]) ∧
    (∀ un em pw,
      ({ username := un, email := em, password := pw } : UserCreate).role
          = UserRole.VIEWER ∧
      ({ username := un, email := em, password := pw } : UserCreate).is_active
          = true) := by
  refine ⟨?_, ?_, ?_, ?_⟩
  · have h1 : create_user hash dbNow db user_data = .error .Conflict ↔
        (db.find? (fun u => u.username == user_data.username ||
          u.email == user_data.email)).isSome := by
      cases hf : db.find? (fun u => u.username == user_data.username ||
          u.email == user_data.email) <;> simp [create_user, hf]
    rw [h1, List.find?_isSome]
    simp
  · intro hne
    have hf : db.find? (fun u => u.username == user_data.username ||
        u.email == user_data.email) = none := by
      cases hf2 : db.find? (fun u => u.username == user_data.username ||
          u.email == user_data.email) with
      | none => rfl
      | some w =>
        exfalso
        have hs : (db.find? (fun u => u.username == user_data.username ||
            u.email == user_data.email)).isSome := by
          rw [hf2]
          rfl
        rw [List.find?_isSome] at hs
        obtain ⟨x, hx, hp⟩ := hs
        simp only [Bool.or_eq_true, beq_iff_eq] at hp
        exact hne ⟨x, hx, hp⟩
    exact ⟨{ id := db.length + 1, username := user_data.username
             email := user_data.email
             hashed_password := hash user_data.password
             full_name := user_data.full_name, role := user_data.role
             is_active := user_data.is_active, is_verified := false
             created_at := dbNow, updated_at := none, last_login := none },
           by simp [create_user, hf]⟩
  · intro u db' h
    cases hf : db.find? (fun x => x.username == user_data.username ||
        x.email == user_data.email) with
    | some w => simp [create_user, hf] at h
    | none =>
      simp [create_user, hf] at h
      obtain ⟨hu, hdb⟩ := h
      subst hu
      subst hdb
      simp
  · intro un em pw
    exact ⟨rfl, rfl⟩

/-- A second registration input, duplicate-free against `sampleCreated`. -/
def sampleCreate2 : UserCreate :=
  { username := "carol", email := "carol@example.com", password := "secret99" }

/-- The user row `create_user` persists for `sampleCreate2` on the
non-empty store `[sampleCreated]` under the hash `fun p => "#" ++ p`. -/
def sampleCreated2 : UserRec :=
  { id := 2, username := "carol", email := "carol@example.com"
    hashed_password := "#secret99", full_name := none
    role := UserRole.VIEWER, is_active := true, is_verified := false
    created_at := 0, updated_at := none, last_login := none }

theorem create_user_spec_witness :
    sampleCreated2.hashed_password =
      (fun p => "#" ++ p) sampleCreate2.password ∧
    sampleCreated2.role = sampleCreate2.role ∧
    sampleCreated2.is_active = sampleCreate2.is_active ∧
    sampleCreated2.username = sampleCreate2.username ∧
    sampleCreated2.email = sampleCreate2.email ∧
    [sampleCreated, sampleCreated2] = [sampleCreated] ++ [sampleCreated2] :=
  (create_user_spec (fun p => "#" ++ p) 0 [sampleCreated] sampleCreate2).2.2.1
    sampleCreated2 [sampleCreated, sampleCreated2] rfl

/-- C10: every user persisted by `create_user` has `is_verified = false`:
the `UserCreate` schema has no `is_verified` field, `create_user` never
sets it, so the model column default false always applies. -/
theorem create_user_is_verified_false (hash : String → String) (dbNow : Nat)
    (db : Db) (user_data : UserCreate) (u : UserRec) (db' : Db)
    (h : create_user hash dbNow db user_data = .ok (u, db')) :
    u.is_verified = false := by
  cases hf : db.find? (fun x => x.username == user_data.username ||
      x.email == user_data.email) with
  | some w => simp [create_user, hf] at h
  | none =>
    simp [create_user, hf] at h
    obtain ⟨hu, _⟩ := h
    subst hu
    rfl

theorem create_user_is_verified_false_witness :
    sampleCreated.is_verified = false :=
  create_user_is_verified_false (fun p => "#" ++ p) 0 [] sampleCreate
    sampleCreated [sampleCreated] rfl

/-- C5: `login_user` fails with InvalidCredentials exactly when
`authenticate_user` returns `None`, and on success returns a token whose
claims are `{sub := username, user_id, role}` for the authenticated user,
with `token_type = "bearer"` and `expires_in` equal to the configured ttl
(`ACCESS_TOKEN_EXPIRE_MINUTES`) expressed in seconds. -/
theorem login_user_spec (verify : String → String → Bool)
    (key now dbNow ttlMinutes : Nat) (db : Db) (login_data : UserLogin) :
    (login_user verify key now dbNow ttlMinutes db login_data
        = .error .InvalidCredentials ↔
      (authenticate_user verify now dbNow db login_data).1 = none) ∧
    (∀ tok db',
      login_user verify key now dbNow ttlMinutes db login_data
          = .ok (tok, db') →
      ∃ user, (authenticate_user verify now dbNow db login_data).1
          = some user ∧
        tok.access_token.claims =
          { sub := user.username, user_id := user.id
            role := user.role.value } ∧
        tok.token_type = "bearer" ∧
        tok.expires_in = ttlMinutes * 60) := by
  rcases ha : authenticate_user verify now dbNow db login_data with ⟨o, d⟩
  cases o with
  | none =>
    constructor
    · simp [login_user, ha]
    · intro tok db' h
      simp [login_user, ha] at h
  | some user =>
    constructor
    · simp [login_user, ha]
    · intro tok db' h
      simp [login_user, ha] at h
      obtain ⟨htok, hdb⟩ := h
      subst htok
      exact ⟨user, by simp [ha], rfl, rfl, rfl⟩

theorem login_user_spec_witness :
    login_user (fun _ _ => true) 0 0 0 30 []
      { username := "a", password := "p" } = .error .InvalidCredentials :=
  (login_user_spec (fun _ _ => true) 0 0 0 30 []
    { username := "a", password := "p" }).1.mpr rfl

/-- A concrete active user for the C6 counterexample. -/
def c6User : UserRec :=
  { id := 1, username := "bob", email := "bob@example.com"
    hashed_password := "h", full_name := none, role := UserRole.VIEWER
    is_active := true, is_verified := false, created_at := 0
    updated_at := none, last_login := none }

/-- C6 counterexample: a successful `authenticate_user` does not only set
`last_login` — the commit also fires the `updated_at` column's
`onupdate=func.now()` default, so `updated_at` changes from `none` to the
update time, contradicting "changes no other field of any user". -/
theorem authenticate_user_not_only_last_login :
    (authenticate_user (fun _ _ => true) 5 7 [c6User]
        { username := "bob", password := "pw" }).2 =
      [{ c6User with last_login := some 5, updated_at := some 7 }] ∧
    c6User.updated_at = none ∧
    ({ c6User with last_login := some 5, updated_at := some 7 } : UserRec)
      ≠ { c6User with last_login := some 5 } := by
  refine ⟨rfl, rfl, ?_⟩
  decide

/-- C6 amended: on success `authenticate_user` sets the authenticated
user's `last_login` to the current time and — via the `updated_at` column's
onupdate default — `updated_at` to the database time, leaving every other
field and every other user unchanged; whenever it returns `none` the store
is entirely unchanged, in particular `last_login` is not modified. -/
theorem authenticate_user_frame (verify : String → String → Bool)
    (now dbNow : Nat) (db : Db) (login : UserLogin) :
    ((authenticate_user verify now dbNow db login).1 = none →
      (authenticate_user verify now dbNow db login).2 = db) ∧
    (∀ user, (authenticate_user verify now dbNow db login).1 = some user →
      user.last_login = some now ∧
      user.updated_at = some dbNow ∧
      (authenticate_user verify now dbNow db login).2 =
        db.map (fun u => if u.id == user.id then user else u) ∧
      ∃ orig, db.find? (fun u => u.username == login.username) = some orig ∧
        user = { orig with last_login := some now
                           updated_at := some dbNow }) := by
  cases hf : db.find? (fun u => u.username == login.username) with
  | none =>
    constructor
    · intro _; simp [authenticate_user, hf]
    · intro user h; simp [authenticate_user, hf] at h
  | some orig =>
    cases hv : verify login.password orig.hashed_password with
    | false =>
      constructor
      · intro _; simp [authenticate_user, hf, hv]
      · intro user h; simp [authenticate_user, hf, hv] at h
    | true =>
      cases hA : orig.is_active with
      | false =>
        constructor
        · intro _; simp [authenticate_user, hf, hv, hA]
        · intro user h; simp [authenticate_user, hf, hv, hA] at h
      | true =>
        constructor
        · intro h; simp [authenticate_user, hf, hv, hA] at h
        · intro user h
          simp [authenticate_user, hf, hv, hA] at h
          subst h
          exact ⟨rfl, rfl, by simp [authenticate_user, hf, hv, hA],
            orig, rfl, by rw [hA]⟩

theorem authenticate_user_frame_witness :
    (authenticate_user (fun _ _ => true) 0 0 []
      { username := "a", password := "p" }).2 = [] :=
  (authenticate_user_frame (fun _ _ => true) 0 0 []
    { username := "a", password := "p" }).1 rfl

/-- C7: decoding a token produced by `create_access_token` with the same
key, before its expiry, returns exactly the original claims. -/
theorem decode_issue_roundtrip (key now now' ttl : Nat)
    (claims : TokenClaims) (hpos : 0 < ttl) (hbefore : now' < now + ttl) :
    verify_token key now' (create_access_token key now claims ttl)
      = .ok claims := by
  have h1 : ¬ (now + ttl ≤ now') := by
    have := hpos
    omega
  simp [verify_token, create_access_token, h1]

theorem decode_issue_roundtrip_witness :
    verify_token 0 0
      (create_access_token 0 0
        { sub := "admin", user_id := 1, role := "admin" } 1800)
      = .ok { sub := "admin", user_id := 1, role := "admin" } :=
  decode_issue_roundtrip 0 0 0 1800
    { sub := "admin", user_id := 1, role := "admin" }
    (by decide) (by decide)

/-- C8: the `UserResponse` view has no field for the password hash or the
plaintext password — the projection returned by the register and `/me`
endpoints is independent of the stored `hashed_password`. -/
theorem toUserResponse_no_password (u : UserRec) (h₁ h₂ : String) :
    toUserResponse { u with hashed_password := h₁ } =
    toUserResponse { u with hashed_password := h₂ } := rfl

/-- C9: the five failure kinds are surfaced as pairwise distinct
(status, detail) pairs, each with a standard 4xx status; the embedding of
every operation raises each at most once, with no internal retry. -/
theorem failureStatus_distinct_4xx :
    (∀ f g : Failure, failureStatus f = failureStatus g → f = g) ∧
    (∀ f : Failure,
      400 ≤ (failureStatus f).1 ∧ (failureStatus f).1 < 500) := by
  constructor
  · intro f g h
    cases f <;> cases g <;> simp_all [failureStatus]
  · intro f
    cases f <;> simp [failureStatus]

theorem failureStatus_distinct_4xx_witness :
    Failure.Forbidden = Failure.Forbidden ∧
    400 ≤ (failureStatus .Forbidden).1 ∧ (failureStatus .Forbidden).1 < 500 :=
  ⟨failureStatus_distinct_4xx.1 .Forbidden .Forbidden rfl,
    failureStatus_distinct_4xx.2 .Forbidden⟩

